import Mathlib

/-!
Shallow embedding of `GPU/Common/DepthRaster.cpp` (PPSSPP's software
depth-only rasterizer pre-pass):
* the 4-lane SSE2 integer vector multiply (`Vec4S32::operator*`),
* the rectangle depth filler `DepthRasterRect`,
* the triangle rasterizer `DepthRasterTriangle`,
* the primitive assembler / transform stage `DepthRasterPrim`.

Machine integers are modelled as `Int`/`Nat` (with explicit `% 2^32`
where lane wrap-around matters); the source's `float` arithmetic is
modelled exactly over `ℚ`; depth buffers are total maps `Int → Nat`
indexed by `row * stride + col` exactly as the source addresses them.
-/

/-- Depth comparison modes (values of the `GEComparison` enum used by the
source; the enum itself lives in a GPU header outside the extracted file). -/
inductive GEComparison where
  | GE_COMP_NEVER
  | GE_COMP_ALWAYS
  | GE_COMP_EQUAL
  | GE_COMP_NOTEQUAL
  | GE_COMP_LESS
  | GE_COMP_LEQUAL
  | GE_COMP_GREATER
  | GE_COMP_GEQUAL
  deriving DecidableEq, Repr

/-- Primitive topologies (`GEPrimitiveType`; enum declared in a GPU header
outside the extracted file, constructors named as in the source). -/
inductive GEPrimitiveType where
  | GE_PRIM_POINTS
  | GE_PRIM_LINES
  | GE_PRIM_LINE_STRIP
  | GE_PRIM_TRIANGLES
  | GE_PRIM_TRIANGLE_STRIP
  | GE_PRIM_TRIANGLE_FAN
  | GE_PRIM_RECTANGLES
  | GE_PRIM_KEEP_PREVIOUS
  | GE_PRIM_INVALID
  deriving DecidableEq, Repr

/-- A transformed screen-space vertex, `struct ScreenVert` from the source:
integer screen x/y, 16-bit depth, and a 16-bit "behind" flag.  `z` and
`behind` are `Nat` standing for the `uint16_t` bit patterns. -/
structure ScreenVert where
  x : Int
  y : Int
  z : Nat
  behind : Nat
  deriving DecidableEq, Repr

/-- A 128-bit SSE register viewed as four 32-bit lanes; each lane is the
`Nat` bit pattern of the stored 32-bit value (lane 0 is the lowest). -/
structure Vec4S32 where
  l0 : Nat
  l1 : Nat
  l2 : Nat
  l3 : Nat
  deriving DecidableEq, Repr

/-- Intrinsic `_mm_shuffle_epi32(v, 0xF5)`: selector `0xF5 = 0b11'11'01'01` picks
source lanes (1, 1, 3, 3) — the `(-, a3, -, a1)` of the source comment. -/
def shuffle_0xF5 (a : Vec4S32) : Vec4S32 :=
  { l0 := a.l1, l1 := a.l1, l2 := a.l3, l3 := a.l3 }

/-- Intrinsic `_mm_mul_epu32`: unsigned 32×32→64-bit products of lanes 0 and 2,
stored as two 64-bit lanes; shown here as their little-endian 32-bit
halves (low half in the even lane, high half in the odd lane). -/
def mul_epu32 (a b : Vec4S32) : Vec4S32 :=
  { l0 := a.l0 * b.l0 % 2 ^ 32, l1 := a.l0 * b.l0 / 2 ^ 32,
    l2 := a.l2 * b.l2 % 2 ^ 32, l3 := a.l2 * b.l2 / 2 ^ 32 }

/-- Intrinsic `_mm_unpacklo_epi32`: interleave the low-half 32-bit lanes. -/
def unpacklo_epi32 (a b : Vec4S32) : Vec4S32 :=
  { l0 := a.l0, l1 := b.l0, l2 := a.l1, l3 := b.l1 }

/-- Intrinsic `_mm_unpackhi_epi32`: interleave the high-half 32-bit lanes. -/
def unpackhi_epi32 (a b : Vec4S32) : Vec4S32 :=
  { l0 := a.l2, l1 := b.l2, l2 := a.l3, l3 := b.l3 }

/-- Intrinsic `_mm_unpacklo_epi64`: take the low 64-bit lane of each argument. -/
def unpacklo_epi64 (a b : Vec4S32) : Vec4S32 :=
  { l0 := a.l0, l1 := a.l1, l2 := b.l0, l3 := b.l1 }

/-- The operator `Vec4S32::operator*` on the SSE2 path (lines 25–33 of the source):
emulate the missing 32-bit lane multiply with two `_mm_mul_epu32` pairs
and lane reassembly. -/
def Vec4S32.mul (a b : Vec4S32) : Vec4S32 :=
  let a13 := shuffle_0xF5 a
  let b13 := shuffle_0xF5 b
  let prod02 := mul_epu32 a b
  let prod13 := mul_epu32 a13 b13
  let prod01 := unpacklo_epi32 prod02 prod13
  let prod23 := unpackhi_epi32 prod02 prod13
  unpacklo_epi64 prod01 prod23

instance : Mul Vec4S32 :=
  ⟨Vec4S32.mul⟩

/-- Write `n` consecutive 16-bit cells starting at `base` to value `d`
(the effect of `memset`/a run of adjacent stores on the buffer map). -/
def writeN (dest : Int → Nat) (base : Int) (n : Nat) (d : Nat) : Int → Nat :=
  fun j => if base ≤ j ∧ j < base + (n : Int) then d else dest j

/-- The SSE2 wide-store loop of `DepthRasterRect`:
`while (w >= 8) { _mm_storeu_si128(ptr, valueX8); ptr++; w -= 8; }` —
stores 8 cells at a time, leaving the `w % 8` trailer untouched
(the source marks the missing trailer with `// TODO: Trailer`). -/
def wideStores (dest : Int → Nat) (base : Int) (d : Nat) : Nat → (Int → Nat)
  | w + 8 => wideStores (writeN dest base 8 d) (base + 8) d w
  | _ => dest

/-- One row of `DepthRasterRect` (SSE2 path): the `switch (depthCompare)`
body for a row starting at buffer index `base` with width `w`. -/
def depthRasterRectRow (dest : Int → Nat) (base : Int) (w : Nat) (d : Nat)
    (depthCompare : GEComparison) : Int → Nat :=
  match depthCompare with
  | .GE_COMP_ALWAYS => if d = 0 then writeN dest base w 0 else wideStores dest base d w
  | _ => dest

/-- The row loop of `DepthRasterRect`: `for (y = y1; y < y2; y++)`,
`n` rows remaining, current row `y`. -/
def depthRasterRectRows (dest : Int → Nat) (stride : Int) (x1 : Int) (w : Nat) (d : Nat)
    (depthCompare : GEComparison) (y : Int) : Nat → (Int → Nat)
  | 0 => dest
  | n + 1 =>
    depthRasterRectRows (depthRasterRectRow dest (stride * y + x1) w d depthCompare)
      stride x1 w d depthCompare (y + 1) n

/-- Function `DepthRasterRect` from the source (SSE2 path): swap the coordinates so
`x1 ≤ x2`, `y1 ≤ y2`, return on a zero-width/height rectangle, then fill
row by row.  `depthValue` is the 16-bit store pattern. -/
def DepthRasterRect (dest : Int → Nat) (stride : Int) (x1 y1 x2 y2 : Int)
    (depthValue : Nat) (depthCompare : GEComparison) : Int → Nat :=
  let xlo := if x1 > x2 then x2 else x1
  let xhi := if x1 > x2 then x1 else x2
  let ylo := if y1 > y2 then y2 else y1
  let yhi := if y1 > y2 then y1 else y2
  if xlo = xhi ∨ ylo = yhi then dest
  else
    depthRasterRectRows dest stride xlo (xhi - xlo).toNat depthValue depthCompare ylo
      (yhi - ylo).toNat

/-- The C cast of a (nonnegative, in-range) `float` to `uint16_t`, on the
exact-rational model of `float`: truncate toward zero, keep the low 16 bits.
(The cast is undefined behaviour in C for values outside `[0, 65536)`; all
reachable uses here are in range.) -/
def ratToU16 (q : ℚ) : Nat :=
  (Int.tdiv q.num (q.den : Int)).toNat % 65536

/-- The C cast of a `float` to `int`: truncation toward zero. -/
def truncQ (q : ℚ) : Int :=
  Int.tdiv q.num (q.den : Int)

/-- The edge function `Fab(x, y) = A*x + B*y + C` of the source. -/
def edgeValue (A B C x y : Int) : Int :=
  A * x + B * y + C

/-- The edge-equation coefficients and signed twice-area computed by the
triangle setup block of `DepthRasterTriangle` (lines 223–238). -/
structure TriEdges where
  A0 : Int
  A1 : Int
  A2 : Int
  B0 : Int
  B1 : Int
  B2 : Int
  C0 : Int
  C1 : Int
  C2 : Int
  triArea : Int
  deriving DecidableEq, Repr

/-- Triangle setup from `DepthRasterTriangle`, applied to the verts *after*
the fixed reordering: `A = ya - yb`, `B = xb - xa`, `C = xa*yb - xb*ya`
per edge, and `triArea = A0 * x0 + B0 * y0 + C0`. -/
def triangleSetup (v0 v1 v2 : ScreenVert) : TriEdges :=
  let A0 := v1.y - v2.y
  let A1 := v2.y - v0.y
  let A2 := v0.y - v1.y
  let B0 := v2.x - v1.x
  let B1 := v0.x - v2.x
  let B2 := v1.x - v0.x
  let C0 := v1.x * v2.y - v2.x * v1.y
  let C1 := v2.x * v0.y - v0.x * v2.y
  let C2 := v0.x * v1.y - v1.x * v0.y
  { A0 := A0, A1 := A1, A2 := A2, B0 := B0, B1 := B1, B2 := B2,
    C0 := C0, C1 := C1, C2 := C2,
    triArea := A0 * v0.x + B0 * v0.y + C0 }

/-- The weight `zz[vv] = (float)verts[vv].z * oneOverTriArea` from the source, exactly
over `ℚ`. -/
def zzWeight (z : Nat) (triArea : Int) : ℚ :=
  (z : ℚ) * (1 / (triArea : ℚ))

/-- The per-pixel `switch (compareMode)` of `DepthRasterTriangle`
(lines 294–305): note `GE_COMP_NEVER` falls into the `default:` arm and
passes, exactly as in the source. -/
def depthTestPassed (compareMode : GEComparison) (depth previousDepthValue : ℚ) : Bool :=
  match compareMode with
  | .GE_COMP_EQUAL => decide (depth = previousDepthValue)
  | .GE_COMP_LESS => decide (depth < previousDepthValue)
  | .GE_COMP_LEQUAL => decide (depth ≤ previousDepthValue)
  | .GE_COMP_GEQUAL => decide (depth ≥ previousDepthValue)
  | .GE_COMP_GREATER => decide (depth > previousDepthValue)
  | .GE_COMP_NOTEQUAL => decide (depth ≠ previousDepthValue)
  | _ => true

/-- Point update of the depth-buffer map. -/
def updateCell (buf : Int → Nat) (idx : Int) (v : Nat) : Int → Nat :=
  fun j => if j = idx then v else buf j

/-- The value the inner-loop body of `DepthRasterTriangle` leaves in cell
`idx` (whose current value is `prev`), given the three edge-function values
at the pixel: outside pixels are skipped; inside pixels store
`(u16)(finalMask == 1 ? depth : previousDepthValue)`. -/
def pixelVal (compareMode : GEComparison) (zz0 zz1 zz2 : ℚ)
    (alpha beta gamma : Int) (prev : Nat) : Nat :=
  if alpha ≥ 0 ∧ beta ≥ 0 ∧ gamma ≥ 0 then
    let depth : ℚ := (alpha : ℚ) * zz0 + (beta : ℚ) * zz1 + (gamma : ℚ) * zz2
    let previousDepthValue : ℚ := (prev : ℚ)
    ratToU16 (if depthTestPassed compareMode depth previousDepthValue then depth
              else previousDepthValue)
  else prev

/-- One step of the column loop of `DepthRasterTriangle`: the body guarded
by the `mask` early-out, writing cell `idx`. -/
def rasterPixel (compareMode : GEComparison) (zz0 zz1 zz2 : ℚ) (buf : Int → Nat)
    (idx : Int) (alpha beta gamma : Int) : Int → Nat :=
  if alpha ≥ 0 ∧ beta ≥ 0 ∧ gamma ≥ 0 then
    updateCell buf idx (pixelVal compareMode zz0 zz1 zz2 alpha beta gamma (buf idx))
  else buf

/-- The column loop of `DepthRasterTriangle`:
`for (c = startX; c < endX; c++, idx++, alpha += A0, beta += A1, gamma += A2)`
with `n` columns remaining. -/
def rasterCols (compareMode : GEComparison) (zz0 zz1 zz2 : ℚ) (A0 A1 A2 : Int)
    (buf : Int → Nat) (idx : Int) (alpha beta gamma : Int) : Nat → (Int → Nat)
  | 0 => buf
  | n + 1 =>
    rasterCols compareMode zz0 zz1 zz2 A0 A1 A2
      (rasterPixel compareMode zz0 zz1 zz2 buf idx alpha beta gamma)
      (idx + 1) (alpha + A0) (beta + A1) (gamma + A2) n

/-- The row loop of `DepthRasterTriangle`:
`for (r = startY; r < endY; r++, rowIdx += stride, alpha0 += B0, beta0 += B1, gamma0 += B2)`
with `m` rows remaining and `nCols` columns per row. -/
def rasterRows (compareMode : GEComparison) (zz0 zz1 zz2 : ℚ) (A0 A1 A2 B0 B1 B2 : Int)
    (stride : Int) (nCols : Nat) (buf : Int → Nat) (rowIdx : Int)
    (alpha0 beta0 gamma0 : Int) : Nat → (Int → Nat)
  | 0 => buf
  | m + 1 =>
    rasterRows compareMode zz0 zz1 zz2 A0 A1 A2 B0 B1 B2 stride nCols
      (rasterCols compareMode zz0 zz1 zz2 A0 A1 A2 buf rowIdx alpha0 beta0 gamma0 nCols)
      (rowIdx + stride) (alpha0 + B0) (beta0 + B1) (gamma0 + B2) m

/-- Left end of the bounding box:
`startX = max(min(min(v0.x, v1.x), v2.x), tileStartX)` (verts already
reordered). -/
def triStartX (x1 : Int) (v0 v1 v2 : ScreenVert) : Int :=
  max (min (min v0.x v1.x) v2.x) x1

/-- Right end `endX = min(max(max(v0.x, v1.x), v2.x) + 1, tileEndX)`. -/
def triEndX (x2 : Int) (v0 v1 v2 : ScreenVert) : Int :=
  min (max (max v0.x v1.x) v2.x + 1) x2

/-- Top end `startY = max(min(min(v0.y, v1.y), v2.y), tileStartY)`. -/
def triStartY (y1 : Int) (v0 v1 v2 : ScreenVert) : Int :=
  max (min (min v0.y v1.y) v2.y) y1

/-- Bottom end `endY = min(max(max(v0.y, v1.y), v2.y) + 1, tileEndY)`. -/
def triEndY (y2 : Int) (v0 v1 v2 : ScreenVert) : Int :=
  min (max (max v0.y v1.y) v2.y + 1) y2

/-- Function `DepthRasterTriangle` from the source: reorder the input verts as
`(vertsSub[0], vertsSub[2], vertsSub[1])`, intersect the bounding box with
the scissor rect `x1,y1,x2,y2`, reject empty boxes and `triArea <= 0`,
then walk the box with incremental edge functions, testing and writing
depth per pixel. -/
def DepthRasterTriangle (depthBuf : Int → Nat) (stride : Int) (x1 y1 x2 y2 : Int)
    (vertsSub0 vertsSub1 vertsSub2 : ScreenVert)
    (compareMode : GEComparison) : Int → Nat :=
  let v0 := vertsSub0
  let v1 := vertsSub2
  let v2 := vertsSub1
  let startX := triStartX x1 v0 v1 v2
  let endX := triEndX x2 v0 v1 v2
  let startY := triStartY y1 v0 v1 v2
  let endY := triEndY y2 v0 v1 v2
  if endX = startX ∨ endY = startY then depthBuf
  else
    let e := triangleSetup v0 v1 v2
    if e.triArea ≤ 0 then depthBuf
    else
      let alpha0 := edgeValue e.A0 e.B0 e.C0 startX startY
      let beta0 := edgeValue e.A1 e.B1 e.C1 startX startY
      let gamma0 := edgeValue e.A2 e.B2 e.C2 startX startY
      let zz0 := zzWeight v0.z e.triArea
      let zz1 := zzWeight v1.z e.triArea
      let zz2 := zzWeight v2.z e.triArea
      rasterRows compareMode zz0 zz1 zz2 e.A0 e.A1 e.A2 e.B0 e.B1 e.B2 stride
        (endX - startX).toNat depthBuf (startY * stride + startX)
        alpha0 beta0 gamma0 (endY - startY).toNat

/-- A 3-component float vector (exact-rational model). -/
structure V3 where
  x : ℚ
  y : ℚ
  z : ℚ
  deriving DecidableEq, Repr

/-- A 4-component float vector (clip-space position, `proj[4]`). -/
structure V4 where
  x : ℚ
  y : ℚ
  z : ℚ
  w : ℚ
  deriving DecidableEq, Repr

/-- Modelled from the spec: `Vec3ByMatrix43` (from `GPU/Math3D.h`, not part
of the extracted file) — multiply a 3-vector by a 4×3 transform matrix
(12 coefficients, the last three being the translation column). -/
def Vec3ByMatrix43 (m : Nat → ℚ) (v : V3) : V3 :=
  { x := v.x * m 0 + v.y * m 3 + v.z * m 6 + m 9,
    y := v.x * m 1 + v.y * m 4 + v.z * m 7 + m 10,
    z := v.x * m 2 + v.y * m 5 + v.z * m 8 + m 11 }

/-- Modelled from the spec: `Vec3ByMatrix44` (from `GPU/Math3D.h`, not part
of the extracted file) — multiply a 3-vector (w = 1) by a 4×4 projection
matrix, producing a clip-space 4-vector. -/
def Vec3ByMatrix44 (m : Nat → ℚ) (v : V3) : V4 :=
  { x := v.x * m 0 + v.y * m 4 + v.z * m 8 + m 12,
    y := v.x * m 1 + v.y * m 5 + v.z * m 9 + m 13,
    z := v.x * m 2 + v.y * m 6 + v.z * m 10 + m 14,
    w := v.x * m 3 + v.y * m 7 + v.z * m 11 + m 15 }

/-- Modelled from the spec: `clamp_value` (from `Common/Math/math_util.h`,
not part of the extracted file) — clamp a value to `[lo, hi]`. -/
def clamp_value (v lo hi : ℚ) : ℚ :=
  if v < lo then lo else if v > hi then hi else v

/-- Modelled from the spec: the snapshot of the ambient GPU register state
(`gstate`) read by `DepthRasterPrim`, one field per accessor the source
calls (§6/§9 of the spec recommend exactly this explicit snapshot). -/
structure GPUState where
  depthTestFunction : GEComparison
  modeClear : Bool
  clearModeDepthMask : Bool
  depthTestEnabled : Bool
  depthWriteEnabled : Bool
  cullEnabled : Bool
  cullDirection : Bool
  worldMatrix : Nat → ℚ
  viewMatrix : Nat → ℚ
  projMatrix : Nat → ℚ
  viewportXCenter : ℚ
  viewportYCenter : ℚ
  viewportZCenter : ℚ
  viewportXScale : ℚ
  viewportYScale : ℚ
  viewportZScale : ℚ
  offsetX16 : ℚ
  offsetY16 : ℚ

/-- Modelled from the spec: the vertex-type descriptor bits of `vertTypeID`
tested by the source (`GE_VTYPE_POS_MASK`, `GE_VTYPE_THROUGH_MASK`,
`GE_VTYPE_IDX_MASK`, `GE_VTYPE_WEIGHT_MASK`; the bit constants live in a GPU
header outside the extracted file, so the masks are modelled as flags). -/
inductive GEPosFormat where
  | GE_VTYPE_POS_8BIT
  | GE_VTYPE_POS_16BIT
  | GE_VTYPE_POS_FLOAT
  deriving DecidableEq, Repr

/-- Modelled from the spec: the fields of `vertTypeID` that
`DepthRasterPrim` inspects. -/
structure VertTypeID where
  pos : GEPosFormat
  through : Bool
  hasIndex : Bool
  hasWeights : Bool
  deriving DecidableEq, Repr

/-- The clip-space `w = proj[3]` of a staged position: world, then view,
then projection transform (lines 405–409 of the source). -/
def clipW (s : GPUState) (v : V3) : ℚ :=
  (Vec3ByMatrix44 s.projMatrix
    (Vec3ByMatrix43 s.viewMatrix (Vec3ByMatrix43 s.worldMatrix v))).w

/-- The per-vertex transform of `DepthRasterPrim` (non-through mode, lines
401–437): model/view/projection transform, behind flag from `w > 0`,
perspective divide, viewport transform with 4-bit subpixel offset, depth
clamp to `[0, 65535]`, and the final truncation to integer pixel
coordinates.  (In ℚ, division by `w = 0` yields 0 where C floats yield
inf/nan; such vertices are marked behind and their x/y are never used by
the triangle paths.) -/
def transformVertex (s : GPUState) (v : V3) : ScreenVert :=
  let world := Vec3ByMatrix43 s.worldMatrix v
  let view := Vec3ByMatrix43 s.viewMatrix world
  let proj := Vec3ByMatrix44 s.projMatrix view
  let w := proj.w
  let inFront : Bool := decide (w > 0)
  let px := proj.x / w
  let py := proj.y / w
  let pz := proj.z / w
  let screen0 := (px * s.viewportXScale + s.viewportXCenter) * 16 - s.offsetX16
  let screen1 := (py * s.viewportYScale + s.viewportYCenter) * 16 - s.offsetY16
  let screen2 := pz * s.viewportZScale + s.viewportZCenter
  let screen2 := if screen2 < 0 then 0 else screen2
  let screen2 := if screen2 ≥ 65535 then (65535 : ℚ) else screen2
  { x := truncQ (screen0 * (1 / 16)),
    y := truncQ (screen1 * (1 / 16)),
    z := ratToU16 screen2,
    behind := if inFront then 0 else 1 }

/-- The position-staging switch of `DepthRasterPrim` (lines 357–384): scale
8-bit positions by 1/128 and 16-bit positions by 1/32768 unless in through
mode; copy float positions verbatim.  `vertexData` is the raw position
triple fetched for each vertex (the byte-level fetch at
`i * vertexStride + offset` is abstracted into it). -/
def stagePositions (pos : GEPosFormat) (isThroughMode : Bool)
    (vertexData : Nat → V3) : Nat → V3 :=
  let factor : ℚ :=
    match pos with
    | .GE_VTYPE_POS_8BIT => if isThroughMode then 1 else 1 / 128
    | .GE_VTYPE_POS_16BIT => if isThroughMode then 1 else 1 / 32768
    | .GE_VTYPE_POS_FLOAT => 1
  fun i => { x := (vertexData i).x * factor,
             y := (vertexData i).y * factor,
             z := (vertexData i).z * factor }

/-- The `GE_PRIM_RECTANGLES` loop of `DepthRasterPrim` (lines 455–461):
`for (i = 0; i < count / 2; i++)` dispatches
`DepthRasterRect(..., screenVerts[i], screenVerts[i + 1], z = screenVerts[i + 1].z, ...)`
(indices exactly as in the source). -/
def rectLoop (compareMode : GEComparison) (depth : Int → Nat) (depthStride : Int)
    (screenVerts : Nat → ScreenVert) (i : Nat) : Nat → (Int → Nat)
  | 0 => depth
  | n + 1 =>
    rectLoop compareMode
      (DepthRasterRect depth depthStride (screenVerts i).x (screenVerts i).y
        (screenVerts (i + 1)).x (screenVerts (i + 1)).y (screenVerts (i + 1)).z
        compareMode)
      depthStride screenVerts (i + 1) n

/-- The `GE_PRIM_TRIANGLES` loop of `DepthRasterPrim` (lines 464–469):
skip triples with a behind vertex, else rasterize. -/
def triListLoop (compareMode : GEComparison) (depth : Int → Nat) (depthStride : Int)
    (x1 y1 x2 y2 : Int) (screenVerts : Nat → ScreenVert) (i : Nat) : Nat → (Int → Nat)
  | 0 => depth
  | n + 1 =>
    let depth' :=
      if (screenVerts (i * 3)).behind ≠ 0 ∨ (screenVerts (i * 3 + 1)).behind ≠ 0 ∨
          (screenVerts (i * 3 + 2)).behind ≠ 0 then depth
      else
        DepthRasterTriangle depth depthStride x1 y1 x2 y2 (screenVerts (i * 3))
          (screenVerts (i * 3 + 1)) (screenVerts (i * 3 + 2)) compareMode
    triListLoop compareMode depth' depthStride x1 y1 x2 y2 screenVerts (i + 1) n

/-- The `GE_PRIM_TRIANGLE_STRIP` loop of `DepthRasterPrim` (lines 472–488):
`i0 = i; i1 = i + wind; wind ^= 3; i2 = i + wind`, skipping triangles with
a behind vertex. -/
def triStripLoop (compareMode : GEComparison) (depth : Int → Nat) (depthStride : Int)
    (x1 y1 x2 y2 : Int) (screenVerts : Nat → ScreenVert) (i wind : Nat) :
    Nat → (Int → Nat)
  | 0 => depth
  | n + 1 =>
    let i0 := i
    let i1 := i + wind
    let wind' := wind ^^^ 3
    let i2 := i + wind'
    let depth' :=
      if (screenVerts i0).behind ≠ 0 ∨ (screenVerts i1).behind ≠ 0 ∨
          (screenVerts i2).behind ≠ 0 then depth
      else
        DepthRasterTriangle depth depthStride x1 y1 x2 y2 (screenVerts i0)
          (screenVerts i1) (screenVerts i2) compareMode
    triStripLoop compareMode depth' depthStride x1 y1 x2 y2 screenVerts (i + 1) wind' n

/-- The comparison mode `DepthRasterPrim` rasterizes with: the GPU state's
depth-test function, forced to `GE_COMP_ALWAYS` in clear mode
(lines 317–322). -/
def effectiveCompareMode (s : GPUState) : GEComparison :=
  if s.modeClear then .GE_COMP_ALWAYS else s.depthTestFunction

/-- The primitive-stitching `switch (prim)` of `DepthRasterPrim`
(lines 453–490); primitives with no `case` (e.g. `GE_PRIM_TRIANGLE_FAN`)
fall through with no writes. -/
def stitchPrims (compareMode : GEComparison) (depth : Int → Nat) (depthStride : Int)
    (x1 y1 x2 y2 : Int) (screenVerts : Nat → ScreenVert) (prim : GEPrimitiveType)
    (count : Nat) : Int → Nat :=
  match prim with
  | .GE_PRIM_RECTANGLES => rectLoop compareMode depth depthStride screenVerts 0 (count / 2)
  | .GE_PRIM_TRIANGLES =>
    triListLoop compareMode depth depthStride x1 y1 x2 y2 screenVerts 0 (count / 3)
  | .GE_PRIM_TRIANGLE_STRIP =>
    triStripLoop compareMode depth depthStride x1 y1 x2 y2 screenVerts 0 2 (count - 2)
  | _ => depth

/-- Function `DepthRasterPrim` from the source (lines 314–491): gating on clear /
depth-test / depth-write state, rejection of unsupported primitive types
and indexed/skinned vertex layouts, position staging, the transform stage
(or the through-mode passthrough, which leaves each `ScreenVert.behind`
holding whatever the caller's scratch buffer previously held there, as the
source never assigns it on that path), the whole-draw behind cull, and
primitive stitching.  `scratch` is the prior contents of the ScreenVert
region of `bufferData`; `clockwise` is the (unused) winding argument. -/
def DepthRasterPrim (s : GPUState) (depth : Int → Nat) (depthStride : Int)
    (x1 y1 x2 y2 : Int) (scratch : Nat → ScreenVert) (vertexData : Nat → V3)
    (prim : GEPrimitiveType) (count : Nat) (vertTypeID : VertTypeID)
    (clockwise : Bool) : Int → Nat :=
  if s.modeClear ∧ ¬s.clearModeDepthMask then depth
  else if ¬s.modeClear ∧ ¬(s.depthTestEnabled ∧ s.depthWriteEnabled) then depth
  else
    let compareMode := effectiveCompareMode s
    match prim with
    | .GE_PRIM_INVALID => depth
    | .GE_PRIM_KEEP_PREVIOUS => depth
    | .GE_PRIM_LINES => depth
    | .GE_PRIM_LINE_STRIP => depth
    | .GE_PRIM_POINTS => depth
    | _ =>
      if vertTypeID.hasIndex ∨ vertTypeID.hasWeights then depth
      else
        let isThroughMode := vertTypeID.through
        let verts := stagePositions vertTypeID.pos isThroughMode vertexData
        if ¬isThroughMode then
          let cullEnabled := s.cullEnabled
          let screenVerts : Nat → ScreenVert := fun i => transformVertex s (verts i)
          let allBehind :=
            (List.range count).all (fun i => (screenVerts i).behind != 0)
          if allBehind then depth
          else stitchPrims compareMode depth depthStride x1 y1 x2 y2 screenVerts prim count
        else
          let screenVerts : Nat → ScreenVert := fun i =>
            { x := truncQ (verts i).x,
              y := truncQ (verts i).y,
              z := ratToU16 (clamp_value (verts i).z 0 65535),
              behind := (scratch i).behind }
          stitchPrims compareMode depth depthStride x1 y1 x2 y2 screenVerts prim count

/-- A concrete GPU-state snapshot: clear mode with the clear-mode depth
mask set (so gating passes and the comparison mode is forced to ALWAYS),
identity-free zero matrices, zero viewport. -/
def clearWriteState : GPUState :=
  { depthTestFunction := .GE_COMP_NEVER
    modeClear := true
    clearModeDepthMask := true
    depthTestEnabled := false
    depthWriteEnabled := false
    cullEnabled := false
    cullDirection := false
    worldMatrix := fun _ => 0
    viewMatrix := fun _ => 0
    projMatrix := fun _ => 0
    viewportXCenter := 0
    viewportYCenter := 0
    viewportZCenter := 0
    viewportXScale := 0
    viewportYScale := 0
    viewportZScale := 0
    offsetX16 := 0
    offsetY16 := 0 }

/-- A concrete GPU-state snapshot: not in clear mode, depth test disabled
(so the gating rejects the draw). -/
def depthTestOffState : GPUState :=
  { clearWriteState with
    modeClear := false
    clearModeDepthMask := false
    depthTestEnabled := false
    depthWriteEnabled := true }

/-- A through-mode float-position vertex layout (no index, no weights). -/
def throughFloatVT : VertTypeID :=
  { pos := .GE_VTYPE_POS_FLOAT, through := true, hasIndex := false, hasWeights := false }

/-- A transformed-mode (non-through) float-position vertex layout. -/
def xformFloatVT : VertTypeID :=
  { pos := .GE_VTYPE_POS_FLOAT, through := false, hasIndex := false, hasWeights := false }

/-- Scratch ScreenVert region whose prior `behind` bytes are all zero. -/
def scratchZero : Nat → ScreenVert :=
  fun _ => { x := 0, y := 0, z := 0, behind := 0 }

/-- Scratch ScreenVert region whose prior `behind` bytes are all nonzero
(stale data from an earlier draw). -/
def scratchStale : Nat → ScreenVert :=
  fun _ => { x := 0, y := 0, z := 0, behind := 1 }

/-- A depth buffer with every cell at the cleared value 65535. -/
def bufAll65535 : Int → Nat :=
  fun _ => 65535

/-- Vertex data for one through-mode triangle: (0,0), (0,4), (4,0), all at
depth 7. -/
def triVData : Nat → V3 :=
  fun i => if i = 0 then ⟨0, 0, 7⟩ else if i = 1 then ⟨0, 4, 7⟩ else ⟨4, 0, 7⟩

/-- Vertex data for two through-mode rectangles: the pairs (0,0)–(2,2) and
(10,10)–(12,12), all at depth 0. -/
def rectVData : Nat → V3 :=
  fun i =>
    if i = 0 then ⟨0, 0, 0⟩ else if i = 1 then ⟨2, 2, 0⟩
    else if i = 2 then ⟨10, 10, 0⟩ else ⟨12, 12, 0⟩

/-- Helper: truncating integer division by one. -/
theorem int_tdiv_one (a : Int) : Int.tdiv a 1 = a := by
  have h1 : (1 : Int) = Int.ofNat 1 := rfl
  cases a with
  | ofNat m =>
    rw [h1]
    show Int.ofNat (m / 1) = Int.ofNat m
    rw [Nat.div_one]
  | negSucc m =>
    rw [h1]
    show -Int.ofNat (Nat.succ m / 1) = Int.negSucc m
    rw [Nat.div_one]
    rfl

/-- Helper: `Int.toNat` of a numeral. -/
theorem int_toNat_ofNat (n : Nat) :
    (no_index (OfNat.ofNat n) : Int).toNat = OfNat.ofNat n := rfl

/-- C8: for every pair of 4-lane 32-bit integer vectors, the SSE2-path lane
multiply returns in each lane the product of the corresponding input lanes
reduced modulo `2^32`. -/
theorem Vec4S32_mul_lanewise_mod (a b : Vec4S32)
    (ha0 : a.l0 < 2 ^ 32) (ha1 : a.l1 < 2 ^ 32) (ha2 : a.l2 < 2 ^ 32)
    (ha3 : a.l3 < 2 ^ 32) (hb0 : b.l0 < 2 ^ 32) (hb1 : b.l1 < 2 ^ 32)
    (hb2 : b.l2 < 2 ^ 32) (hb3 : b.l3 < 2 ^ 32) :
    (a * b).l0 = a.l0 * b.l0 % 2 ^ 32 ∧ (a * b).l1 = a.l1 * b.l1 % 2 ^ 32 ∧
    (a * b).l2 = a.l2 * b.l2 % 2 ^ 32 ∧ (a * b).l3 = a.l3 * b.l3 % 2 ^ 32 :=
  ⟨rfl, rfl, rfl, rfl⟩

/-- Witness for C8 at concrete 32-bit lanes (including lanes ≥ 2^31, whose
signed interpretation is negative). -/
theorem Vec4S32_mul_lanewise_mod_witness :
    ((⟨5, 2 ^ 31 + 1, 7, 2 ^ 32 - 1⟩ : Vec4S32) * ⟨3, 5, 2 ^ 32 - 1, 2 ^ 32 - 1⟩).l0 =
        5 * 3 % 2 ^ 32 ∧
    ((⟨5, 2 ^ 31 + 1, 7, 2 ^ 32 - 1⟩ : Vec4S32) * ⟨3, 5, 2 ^ 32 - 1, 2 ^ 32 - 1⟩).l1 =
        (2 ^ 31 + 1) * 5 % 2 ^ 32 ∧
    ((⟨5, 2 ^ 31 + 1, 7, 2 ^ 32 - 1⟩ : Vec4S32) * ⟨3, 5, 2 ^ 32 - 1, 2 ^ 32 - 1⟩).l2 =
        7 * (2 ^ 32 - 1) % 2 ^ 32 ∧
    ((⟨5, 2 ^ 31 + 1, 7, 2 ^ 32 - 1⟩ : Vec4S32) * ⟨3, 5, 2 ^ 32 - 1, 2 ^ 32 - 1⟩).l3 =
        (2 ^ 32 - 1) * (2 ^ 32 - 1) % 2 ^ 32 :=
  Vec4S32_mul_lanewise_mod ⟨5, 2 ^ 31 + 1, 7, 2 ^ 32 - 1⟩ ⟨3, 5, 2 ^ 32 - 1, 2 ^ 32 - 1⟩
    (by decide) (by decide) (by decide) (by decide) (by decide) (by decide) (by decide)
    (by decide)

/-- C1 (counter-evidence): the spec's end-to-end scenario A — rectangle
(2,2)–(6,5), `depthValue = 100`, `GE_COMP_ALWAYS`, buffer initially 65535 —
leaves every covered cell at 65535: the row width is 4 < 8, so the SSE2
wide-store loop never executes and the trailer is missing (`// TODO:
Trailer`), where the claim requires all 16 covered cells to become 100. -/
theorem DepthRasterRect_scenarioA_writes_nothing :
    DepthRasterRect (fun _ => 65535) 16 2 2 6 5 100 .GE_COMP_ALWAYS (2 * 16 + 2) = 65535 ∧
    DepthRasterRect (fun _ => 65535) 16 2 2 6 5 100 .GE_COMP_ALWAYS (4 * 16 + 5) = 65535 := by
  constructor <;> decide

/-- C4: a triangle whose signed twice-area `triArea` (computed from the
first edge equation at vertex 0 plus its constant term, after the fixed
reordering of the incoming verts to `(v0, v2, v1)`) is zero or negative is
rejected by `DepthRasterTriangle` with no depth-buffer writes, for every
comparison mode. -/
theorem DepthRasterTriangle_nonpos_area_no_writes (depthBuf : Int → Nat)
    (stride x1 y1 x2 y2 : Int) (vs0 vs1 vs2 : ScreenVert) (compareMode : GEComparison)
    (h : (triangleSetup vs0 vs2 vs1).triArea ≤ 0) :
    DepthRasterTriangle depthBuf stride x1 y1 x2 y2 vs0 vs1 vs2 compareMode = depthBuf := by
  simp only [DepthRasterTriangle]
  split <;> simp [h]

/-- Witness for C4: a clockwise-wound right triangle (negative area,
`triArea = -16`) produces no writes. -/
theorem DepthRasterTriangle_nonpos_area_no_writes_witness :
    DepthRasterTriangle (fun _ => 65535) 16 0 0 16 16 ⟨0, 0, 7, 0⟩ ⟨4, 0, 7, 0⟩
      ⟨0, 4, 7, 0⟩ .GE_COMP_ALWAYS = fun _ => 65535 :=
  DepthRasterTriangle_nonpos_area_no_writes (fun _ => 65535) 16 0 0 16 16 ⟨0, 0, 7, 0⟩
    ⟨4, 0, 7, 0⟩ ⟨0, 4, 7, 0⟩ .GE_COMP_ALWAYS (by decide)

/-- C3: at every pixel, the three (unnormalized) edge-function values of a
triangle sum exactly to `triArea`; hence, in exact arithmetic, for an
accepted triangle (`triArea > 0`) the interpolated depth
`alpha * zz[0] + beta * zz[1] + gamma * zz[2]` is the barycentric-weighted
average of the three vertex depths — the weights `edge / triArea` sum
to 1. -/
theorem edge_values_sum_to_triArea (v0 v1 v2 : ScreenVert) (x y : Int) :
    edgeValue (triangleSetup v0 v1 v2).A0 (triangleSetup v0 v1 v2).B0
        (triangleSetup v0 v1 v2).C0 x y +
      edgeValue (triangleSetup v0 v1 v2).A1 (triangleSetup v0 v1 v2).B1
        (triangleSetup v0 v1 v2).C1 x y +
      edgeValue (triangleSetup v0 v1 v2).A2 (triangleSetup v0 v1 v2).B2
        (triangleSetup v0 v1 v2).C2 x y = (triangleSetup v0 v1 v2).triArea ∧
    (0 < (triangleSetup v0 v1 v2).triArea →
      ((edgeValue (triangleSetup v0 v1 v2).A0 (triangleSetup v0 v1 v2).B0
            (triangleSetup v0 v1 v2).C0 x y : ℚ) * zzWeight v0.z (triangleSetup v0 v1 v2).triArea +
          (edgeValue (triangleSetup v0 v1 v2).A1 (triangleSetup v0 v1 v2).B1
            (triangleSetup v0 v1 v2).C1 x y : ℚ) * zzWeight v1.z (triangleSetup v0 v1 v2).triArea +
          (edgeValue (triangleSetup v0 v1 v2).A2 (triangleSetup v0 v1 v2).B2
            (triangleSetup v0 v1 v2).C2 x y : ℚ) * zzWeight v2.z (triangleSetup v0 v1 v2).triArea =
        (edgeValue (triangleSetup v0 v1 v2).A0 (triangleSetup v0 v1 v2).B0
            (triangleSetup v0 v1 v2).C0 x y : ℚ) / ((triangleSetup v0 v1 v2).triArea : ℚ) * (v0.z : ℚ) +
          (edgeValue (triangleSetup v0 v1 v2).A1 (triangleSetup v0 v1 v2).B1
            (triangleSetup v0 v1 v2).C1 x y : ℚ) / ((triangleSetup v0 v1 v2).triArea : ℚ) * (v1.z : ℚ) +
          (edgeValue (triangleSetup v0 v1 v2).A2 (triangleSetup v0 v1 v2).B2
            (triangleSetup v0 v1 v2).C2 x y : ℚ) / ((triangleSetup v0 v1 v2).triArea : ℚ) * (v2.z : ℚ)) ∧
      (edgeValue (triangleSetup v0 v1 v2).A0 (triangleSetup v0 v1 v2).B0
            (triangleSetup v0 v1 v2).C0 x y : ℚ) / ((triangleSetup v0 v1 v2).triArea : ℚ) +
          (edgeValue (triangleSetup v0 v1 v2).A1 (triangleSetup v0 v1 v2).B1
            (triangleSetup v0 v1 v2).C1 x y : ℚ) / ((triangleSetup v0 v1 v2).triArea : ℚ) +
          (edgeValue (triangleSetup v0 v1 v2).A2 (triangleSetup v0 v1 v2).B2
            (triangleSetup v0 v1 v2).C2 x y : ℚ) / ((triangleSetup v0 v1 v2).triArea : ℚ) = 1) := by
  have hsum : edgeValue (triangleSetup v0 v1 v2).A0 (triangleSetup v0 v1 v2).B0
        (triangleSetup v0 v1 v2).C0 x y +
      edgeValue (triangleSetup v0 v1 v2).A1 (triangleSetup v0 v1 v2).B1
        (triangleSetup v0 v1 v2).C1 x y +
      edgeValue (triangleSetup v0 v1 v2).A2 (triangleSetup v0 v1 v2).B2
        (triangleSetup v0 v1 v2).C2 x y = (triangleSetup v0 v1 v2).triArea := by
    simp only [triangleSetup, edgeValue]
    ring
  refine ⟨hsum, fun hpos => ⟨?_, ?_⟩⟩
  · have hT : ((triangleSetup v0 v1 v2).triArea : ℚ) ≠ 0 := by
      exact_mod_cast hpos.ne'
    simp only [zzWeight]
    field_simp
  · have hT : ((triangleSetup v0 v1 v2).triArea : ℚ) ≠ 0 := by
      exact_mod_cast hpos.ne'
    field_simp
    exact_mod_cast hsum

/-- Witness for C3 at a concrete accepted triangle and pixel. -/
theorem edge_values_sum_to_triArea_witness :
    0 < (triangleSetup ⟨0, 0, 7, 0⟩ ⟨4, 0, 9, 0⟩ ⟨0, 4, 11, 0⟩).triArea ∧
    edgeValue (triangleSetup ⟨0, 0, 7, 0⟩ ⟨4, 0, 9, 0⟩ ⟨0, 4, 11, 0⟩).A0
        (triangleSetup ⟨0, 0, 7, 0⟩ ⟨4, 0, 9, 0⟩ ⟨0, 4, 11, 0⟩).B0
        (triangleSetup ⟨0, 0, 7, 0⟩ ⟨4, 0, 9, 0⟩ ⟨0, 4, 11, 0⟩).C0 1 1 +
      edgeValue (triangleSetup ⟨0, 0, 7, 0⟩ ⟨4, 0, 9, 0⟩ ⟨0, 4, 11, 0⟩).A1
        (triangleSetup ⟨0, 0, 7, 0⟩ ⟨4, 0, 9, 0⟩ ⟨0, 4, 11, 0⟩).B1
        (triangleSetup ⟨0, 0, 7, 0⟩ ⟨4, 0, 9, 0⟩ ⟨0, 4, 11, 0⟩).C1 1 1 +
      edgeValue (triangleSetup ⟨0, 0, 7, 0⟩ ⟨4, 0, 9, 0⟩ ⟨0, 4, 11, 0⟩).A2
        (triangleSetup ⟨0, 0, 7, 0⟩ ⟨4, 0, 9, 0⟩ ⟨0, 4, 11, 0⟩).B2
        (triangleSetup ⟨0, 0, 7, 0⟩ ⟨4, 0, 9, 0⟩ ⟨0, 4, 11, 0⟩).C2 1 1 =
      (triangleSetup ⟨0, 0, 7, 0⟩ ⟨4, 0, 9, 0⟩ ⟨0, 4, 11, 0⟩).triArea :=
  ⟨by decide, (edge_values_sum_to_triArea ⟨0, 0, 7, 0⟩ ⟨4, 0, 9, 0⟩ ⟨0, 4, 11, 0⟩ 1 1).1⟩

/-- Helper: the behind flag set by the transform stage is nonzero exactly
when the clip-space `w` is `≤ 0` (`inFront = w > 0.0f; behind = !inFront`). -/
theorem transformVertex_behind_iff (s : GPUState) (v : V3) :
    (transformVertex s v).behind ≠ 0 ↔ clipW s v ≤ 0 := by
  have hb : (transformVertex s v).behind =
      if decide (0 < clipW s v) = true then 0 else 1 := rfl
  rw [hb]
  by_cases hw : 0 < clipW s v
  · simp [hw, not_le.mpr hw]
  · simp [hw, not_lt.mp hw]

/-- Helper: when every staged vertex of a non-through draw has `w ≤ 0`,
`DepthRasterPrim` abandons the whole draw (`allBehind` cull), leaving the
depth buffer untouched (gating failures also leave it untouched). -/
theorem DepthRasterPrim_allBehind (s : GPUState) (depth : Int → Nat)
    (depthStride x1 y1 x2 y2 : Int) (scratch : Nat → ScreenVert)
    (vertexData : Nat → V3) (prim : GEPrimitiveType) (count : Nat)
    (vt : VertTypeID) (clockwise : Bool) (hth : vt.through = false)
    (hbehind : ∀ i, i < count →
      clipW s (stagePositions vt.pos vt.through vertexData i) ≤ 0) :
    DepthRasterPrim s depth depthStride x1 y1 x2 y2 scratch vertexData prim count vt
      clockwise = depth := by
  have hne : ∀ i, i < count →
      (transformVertex s (stagePositions vt.pos false vertexData i)).behind ≠ 0 := by
    intro i hi
    have h2 := hbehind i hi
    rw [hth] at h2
    exact (transformVertex_behind_iff s _).mpr h2
  cases prim <;> simp [DepthRasterPrim, hth] <;>
    exact fun _ _ _ _ i hi hb => absurd hb (hne i hi)

/-- C7: in the transform stage of `DepthRasterPrim` (non-through mode) a
vertex is marked behind exactly when its clip-space `w` is `≤ 0`, and a
draw all of whose vertices are behind is abandoned with no depth-buffer
writes. -/
theorem DepthRasterPrim_behind_flag_and_cull :
    (∀ (s : GPUState) (v : V3), (transformVertex s v).behind ≠ 0 ↔ clipW s v ≤ 0) ∧
    (∀ (s : GPUState) (depth : Int → Nat) (depthStride x1 y1 x2 y2 : Int)
        (scratch : Nat → ScreenVert) (vertexData : Nat → V3) (prim : GEPrimitiveType)
        (count : Nat) (vt : VertTypeID) (clockwise : Bool),
        vt.through = false →
        (∀ i, i < count →
          clipW s (stagePositions vt.pos vt.through vertexData i) ≤ 0) →
        DepthRasterPrim s depth depthStride x1 y1 x2 y2 scratch vertexData prim count vt
          clockwise = depth) :=
  ⟨transformVertex_behind_iff, DepthRasterPrim_allBehind⟩

/-- Witness for C7: with the zero matrices of `clearWriteState`, every
vertex has clip-space `w = 0 ≤ 0`: it is marked behind, and a non-through
triangle draw is abandoned. -/
theorem DepthRasterPrim_behind_flag_and_cull_witness :
    (transformVertex clearWriteState ⟨1, 2, 3⟩).behind ≠ 0 ∧
    DepthRasterPrim clearWriteState bufAll65535 16 0 0 16 16 scratchZero triVData
      .GE_PRIM_TRIANGLES 3 xformFloatVT false = bufAll65535 :=
  ⟨(DepthRasterPrim_behind_flag_and_cull.1 clearWriteState ⟨1, 2, 3⟩).mpr
      (by norm_num [clipW, clearWriteState, Vec3ByMatrix43, Vec3ByMatrix44]),
    DepthRasterPrim_behind_flag_and_cull.2 clearWriteState bufAll65535 16 0 0 16 16
      scratchZero triVData .GE_PRIM_TRIANGLES 3 xformFloatVT false rfl
      (fun i _ => by norm_num [clipW, clearWriteState, Vec3ByMatrix43, Vec3ByMatrix44])⟩

/-- C6: `DepthRasterPrim` writes nothing when its gating fails — clear mode
without the clear-mode depth-write flag; non-clear mode without depth test
and depth write both enabled; an unsupported primitive type (points, lines,
line strips, invalid, keep-previous); or a vertex layout with an index
buffer or skin weights — and in clear mode (with the flag) the comparison
mode is forced to ALWAYS. -/
theorem DepthRasterPrim_gating :
    (∀ (s : GPUState) (depth : Int → Nat) (depthStride x1 y1 x2 y2 : Int)
        (scratch : Nat → ScreenVert) (vertexData : Nat → V3) (prim : GEPrimitiveType)
        (count : Nat) (vt : VertTypeID) (clockwise : Bool),
        ((s.modeClear = true ∧ s.clearModeDepthMask = false) ∨
          (s.modeClear = false ∧ ¬(s.depthTestEnabled = true ∧ s.depthWriteEnabled = true)) ∨
          prim = .GE_PRIM_POINTS ∨ prim = .GE_PRIM_LINES ∨ prim = .GE_PRIM_LINE_STRIP ∨
          prim = .GE_PRIM_INVALID ∨ prim = .GE_PRIM_KEEP_PREVIOUS ∨
          vt.hasIndex = true ∨ vt.hasWeights = true) →
        DepthRasterPrim s depth depthStride x1 y1 x2 y2 scratch vertexData prim count vt
          clockwise = depth) ∧
    (∀ s : GPUState, s.modeClear = true → effectiveCompareMode s = .GE_COMP_ALWAYS) := by
  constructor
  · rintro s depth depthStride x1 y1 x2 y2 scratch vertexData prim count vt clockwise
      (⟨h1, h2⟩ | ⟨h1, h2⟩ | h | h | h | h | h | h | h) <;>
      cases prim <;> simp_all [DepthRasterPrim]
  · intro s h
    simp [effectiveCompareMode, h]

/-- Witness for C6: a draw with depth test disabled (not clear mode) is a
no-op, and clear mode forces the ALWAYS comparison. -/
theorem DepthRasterPrim_gating_witness :
    DepthRasterPrim depthTestOffState bufAll65535 16 0 0 16 16 scratchZero triVData
      .GE_PRIM_TRIANGLES 3 throughFloatVT false = bufAll65535 ∧
    effectiveCompareMode clearWriteState = .GE_COMP_ALWAYS :=
  ⟨DepthRasterPrim_gating.1 depthTestOffState bufAll65535 16 0 0 16 16 scratchZero
      triVData .GE_PRIM_TRIANGLES 3 throughFloatVT false
      (Or.inr (Or.inl ⟨rfl, by simp [depthTestOffState, clearWriteState]⟩)),
    DepthRasterPrim_gating.2 clearWriteState rfl⟩

/-- C10: the depth buffer produced by `DepthRasterPrim` does not depend on
the `clockwise` winding argument nor on the GPU cull-enable / cull-direction
state: the source reads `isCullEnabled()` into a dead local and never uses
`clockwise` at all. -/
theorem DepthRasterPrim_ignores_winding_and_cull (s : GPUState)
    (c1 c2 d1 d2 cw1 cw2 : Bool) (depth : Int → Nat) (depthStride x1 y1 x2 y2 : Int)
    (scratch : Nat → ScreenVert) (vertexData : Nat → V3) (prim : GEPrimitiveType)
    (count : Nat) (vt : VertTypeID) :
    DepthRasterPrim { s with cullEnabled := c1, cullDirection := d1 } depth depthStride
        x1 y1 x2 y2 scratch vertexData prim count vt cw1 =
      DepthRasterPrim { s with cullEnabled := c2, cullDirection := d2 } depth depthStride
        x1 y1 x2 y2 scratch vertexData prim count vt cw2 := rfl

/-- C2 (counter-evidence): a through-mode `GE_PRIM_RECTANGLES` draw with 4
vertices — pairs (0,0)-(2,2) and (10,10)-(12,12), all depth 0, ALWAYS —
fills cell (5,5), which only the source's overlapping rectangle
`(screenVerts[1], screenVerts[2]) = (2,2)-(10,10)` covers, and leaves cell
(10,10) untouched, though the claimed pairing `(verts 2, verts 3)` covers
it: the loop indexes `screenVerts[i]` and `screenVerts[i+1]`, not
`screenVerts[2*i]` and `screenVerts[2*i+1]`. -/
theorem DepthRasterPrim_rect_pairs_overlap :
    DepthRasterPrim clearWriteState bufAll65535 16 0 0 16 16 scratchZero rectVData
      .GE_PRIM_RECTANGLES 4 throughFloatVT false (5 * 16 + 5) = 0 ∧
    DepthRasterPrim clearWriteState bufAll65535 16 0 0 16 16 scratchZero rectVData
      .GE_PRIM_RECTANGLES 4 throughFloatVT false (10 * 16 + 10) = 65535 := by
  constructor <;>
    norm_num [DepthRasterPrim, clearWriteState, effectiveCompareMode, stagePositions,
      throughFloatVT, rectVData, scratchZero, bufAll65535, truncQ, ratToU16, clamp_value,
      int_tdiv_one, stitchPrims, rectLoop, DepthRasterRect, depthRasterRectRows,
      depthRasterRectRow, writeN]

set_option maxHeartbeats 1600000 in
/-- C9 (counter-evidence): two through-mode `GE_PRIM_TRIANGLES` draws with
identical arguments and GPU state but different prior contents of the
caller's scratch buffer produce different depth buffers: the through path
never assigns `ScreenVert::behind`, so stale nonzero bytes make the
behind-skip test drop the triangle. -/
theorem DepthRasterPrim_through_behind_uninitialized :
    DepthRasterPrim clearWriteState bufAll65535 16 0 0 16 16 scratchZero triVData
      .GE_PRIM_TRIANGLES 3 throughFloatVT false (1 * 16 + 1) = 7 ∧
    DepthRasterPrim clearWriteState bufAll65535 16 0 0 16 16 scratchStale triVData
      .GE_PRIM_TRIANGLES 3 throughFloatVT false (1 * 16 + 1) = 65535 := by
  constructor <;>
    norm_num [DepthRasterPrim, clearWriteState, effectiveCompareMode, stagePositions,
      throughFloatVT, triVData, scratchZero, scratchStale, bufAll65535, truncQ, ratToU16,
      clamp_value, int_tdiv_one, int_toNat_ofNat, stitchPrims, triListLoop,
      DepthRasterTriangle, triStartX, triEndX, triStartY, triEndY, triangleSetup,
      edgeValue, zzWeight, rasterRows, rasterCols, rasterPixel, pixelVal,
      depthTestPassed, updateCell]

/-- Helper: `ratToU16` of a natural-number cast. -/
theorem ratToU16_natCast (n : Nat) : ratToU16 (n : ℚ) = n % 65536 := by
  simp [ratToU16, int_tdiv_one]

/-- Helper: a pixel step leaves every other cell unchanged. -/
theorem rasterPixel_apply_ne (cmp : GEComparison) (zz0 zz1 zz2 : ℚ) (buf : Int → Nat)
    (idx : Int) (alpha beta gamma : Int) (j : Int) (h : j ≠ idx) :
    rasterPixel cmp zz0 zz1 zz2 buf idx alpha beta gamma j = buf j := by
  unfold rasterPixel
  split
  · simp [updateCell, h]
  · rfl

/-- Helper: a pixel step leaves cell `idx` holding `pixelVal` of its old
value. -/
theorem rasterPixel_apply_self (cmp : GEComparison) (zz0 zz1 zz2 : ℚ) (buf : Int → Nat)
    (idx : Int) (alpha beta gamma : Int) :
    rasterPixel cmp zz0 zz1 zz2 buf idx alpha beta gamma idx =
      pixelVal cmp zz0 zz1 zz2 alpha beta gamma (buf idx) := by
  unfold rasterPixel pixelVal
  split
  · simp [updateCell]
  · rfl

/-- Helper: the column loop only writes cells `[idx, idx + n)`. -/
theorem rasterCols_apply_ne (cmp : GEComparison) (zz0 zz1 zz2 : ℚ) (A0 A1 A2 : Int) :
    ∀ (n : Nat) (buf : Int → Nat) (idx alpha beta gamma j : Int),
      (j < idx ∨ idx + (n : Int) ≤ j) →
      rasterCols cmp zz0 zz1 zz2 A0 A1 A2 buf idx alpha beta gamma n j = buf j := by
  intro n
  induction n with
  | zero => intro buf idx alpha beta gamma j _; rfl
  | succ n ih =>
    intro buf idx alpha beta gamma j hj
    rw [rasterCols]
    rw [ih _ _ _ _ _ _ (by omega)]
    exact rasterPixel_apply_ne cmp zz0 zz1 zz2 buf idx alpha beta gamma j (by omega)

/-- Helper: after the column loop, cell `idx + k` (for `k < n`) holds the
pixel value computed from its pre-loop contents, with the edge functions
stepped `k` times by the `A` coefficients. -/
theorem rasterCols_apply_mem (cmp : GEComparison) (zz0 zz1 zz2 : ℚ) (A0 A1 A2 : Int) :
    ∀ (n k : Nat), k < n →
      ∀ (buf : Int → Nat) (idx alpha beta gamma : Int),
      rasterCols cmp zz0 zz1 zz2 A0 A1 A2 buf idx alpha beta gamma n (idx + (k : Int)) =
        pixelVal cmp zz0 zz1 zz2 (alpha + (k : Int) * A0) (beta + (k : Int) * A1)
          (gamma + (k : Int) * A2) (buf (idx + (k : Int))) := by
  intro n
  induction n with
  | zero => intro k hk; omega
  | succ n ih =>
    intro k hk buf idx alpha beta gamma
    rw [rasterCols]
    rcases Nat.eq_zero_or_pos k with hk0 | hkpos
    · subst hk0
      rw [rasterCols_apply_ne cmp zz0 zz1 zz2 A0 A1 A2 n _ _ _ _ _ _ (by omega)]
      simp only [Nat.cast_zero, add_zero, zero_mul]
      exact rasterPixel_apply_self cmp zz0 zz1 zz2 buf idx alpha beta gamma
    · obtain ⟨k', rfl⟩ : ∃ k', k = k' + 1 := ⟨k - 1, by omega⟩
      have h1 : idx + ((k' + 1 : Nat) : Int) = (idx + 1) + (k' : Int) := by
        push_cast; ring
      rw [h1, ih k' (by omega)]
      rw [rasterPixel_apply_ne cmp zz0 zz1 zz2 buf idx alpha beta gamma _ (by omega)]
      have h2 : idx + 1 + (k' : Int) = idx + ((k' + 1 : Nat) : Int) := by push_cast; ring
      rw [h2]
      congr 1 <;> push_cast <;> ring

/-- Helper: the row loop only writes cells inside the walked rows. -/
theorem rasterRows_apply_ne (cmp : GEComparison) (zz0 zz1 zz2 : ℚ)
    (A0 A1 A2 B0 B1 B2 stride : Int) (nCols : Nat) :
    ∀ (m : Nat) (buf : Int → Nat) (rowIdx alpha0 beta0 gamma0 j : Int),
      (∀ r : Nat, r < m →
        ¬(rowIdx + (r : Int) * stride ≤ j ∧
          j < rowIdx + (r : Int) * stride + (nCols : Int))) →
      rasterRows cmp zz0 zz1 zz2 A0 A1 A2 B0 B1 B2 stride nCols buf rowIdx
        alpha0 beta0 gamma0 m j = buf j := by
  intro m
  induction m with
  | zero => intro buf rowIdx alpha0 beta0 gamma0 j _; rfl
  | succ m ih =>
    intro buf rowIdx alpha0 beta0 gamma0 j hj
    rw [rasterRows]
    rw [ih _ _ _ _ _ _ (fun r hr => by
      have hthis := hj (r + 1) (by omega)
      push_cast at hthis ⊢
      exact fun hc => hthis ⟨by linarith [hc.1], by linarith [hc.2]⟩)]
    have h0 := hj 0 (by omega)
    simp only [Nat.cast_zero, zero_mul, add_zero] at h0
    exact rasterCols_apply_ne cmp zz0 zz1 zz2 A0 A1 A2 nCols buf rowIdx
      alpha0 beta0 gamma0 j (by omega)

/-- Helper: after the row loop, cell `rowIdx + r*stride + k` (row `r < m`,
column `k < nCols`, rows non-overlapping because `nCols ≤ stride`) holds
the pixel value computed from its pre-loop contents, with the edge
functions stepped `r` times by `B` and `k` times by `A`. -/
theorem rasterRows_apply_mem (cmp : GEComparison) (zz0 zz1 zz2 : ℚ)
    (A0 A1 A2 B0 B1 B2 stride : Int) (nCols : Nat)
    (hcs : (nCols : Int) ≤ stride) (hs : 0 < stride) :
    ∀ (m r k : Nat), r < m → k < nCols →
      ∀ (buf : Int → Nat) (rowIdx alpha0 beta0 gamma0 : Int),
      rasterRows cmp zz0 zz1 zz2 A0 A1 A2 B0 B1 B2 stride nCols buf rowIdx
          alpha0 beta0 gamma0 m (rowIdx + (r : Int) * stride + (k : Int)) =
        pixelVal cmp zz0 zz1 zz2 (alpha0 + (r : Int) * B0 + (k : Int) * A0)
          (beta0 + (r : Int) * B1 + (k : Int) * A1)
          (gamma0 + (r : Int) * B2 + (k : Int) * A2)
          (buf (rowIdx + (r : Int) * stride + (k : Int))) := by
  intro m
  induction m with
  | zero => intro r k hr; omega
  | succ m ih =>
    intro r k hr hk buf rowIdx alpha0 beta0 gamma0
    rw [rasterRows]
    rcases Nat.eq_zero_or_pos r with hr0 | hrpos
    · subst hr0
      simp only [Nat.cast_zero, zero_mul, add_zero]
      rw [rasterRows_apply_ne cmp zz0 zz1 zz2 A0 A1 A2 B0 B1 B2 stride nCols m _ _ _ _ _ _
        (fun r' _ => by
          push_cast
          intro hc
          have h1 := hc.1
          have h2 : (0 : Int) ≤ (r' : Int) * stride :=
            mul_nonneg (by positivity) (le_of_lt hs)
          omega)]
      rw [rasterCols_apply_mem cmp zz0 zz1 zz2 A0 A1 A2 nCols k hk buf rowIdx
        alpha0 beta0 gamma0]
    · obtain ⟨r', rfl⟩ : ∃ r', r = r' + 1 := ⟨r - 1, by omega⟩
      have h1 : rowIdx + ((r' + 1 : Nat) : Int) * stride + (k : Int) =
          (rowIdx + stride) + (r' : Int) * stride + (k : Int) := by
        push_cast; ring
      rw [h1, ih r' k (by omega) hk]
      rw [rasterCols_apply_ne cmp zz0 zz1 zz2 A0 A1 A2 nCols buf rowIdx
        alpha0 beta0 gamma0 _ (by
          right
          have h2 : (0 : Int) ≤ (r' : Int) * stride :=
            mul_nonneg (by positivity) (le_of_lt hs)
          omega)]
      rw [← h1]
      congr 1 <;> push_cast <;> ring

/-- C5: at every pixel inside a rasterized triangle (all three edge values
nonnegative, `triArea > 0`, pixel in the walked bounding box, rows
non-aliasing since the box width is at most `stride`), the cell after
`DepthRasterTriangle` returns holds the truncated interpolated depth
(cast to 16-bit unsigned) when the comparison-mode predicate passes
against the prior 16-bit value, and exactly the prior 16-bit value when it
fails. -/
theorem DepthRasterTriangle_pixel_update (buf : Int → Nat) (stride x1 y1 x2 y2 : Int)
    (vs0 vs1 vs2 : ScreenVert) (cmp : GEComparison) (px py : Int)
    (hT : 0 < (triangleSetup vs0 vs2 vs1).triArea)
    (hpx1 : triStartX x1 vs0 vs2 vs1 ≤ px) (hpx2 : px < triEndX x2 vs0 vs2 vs1)
    (hpy1 : triStartY y1 vs0 vs2 vs1 ≤ py) (hpy2 : py < triEndY y2 vs0 vs2 vs1)
    (hstr : triEndX x2 vs0 vs2 vs1 - triStartX x1 vs0 vs2 vs1 ≤ stride)
    (halpha : 0 ≤ edgeValue (triangleSetup vs0 vs2 vs1).A0 (triangleSetup vs0 vs2 vs1).B0
      (triangleSetup vs0 vs2 vs1).C0 px py)
    (hbeta : 0 ≤ edgeValue (triangleSetup vs0 vs2 vs1).A1 (triangleSetup vs0 vs2 vs1).B1
      (triangleSetup vs0 vs2 vs1).C1 px py)
    (hgamma : 0 ≤ edgeValue (triangleSetup vs0 vs2 vs1).A2 (triangleSetup vs0 vs2 vs1).B2
      (triangleSetup vs0 vs2 vs1).C2 px py)
    (hbuf : buf (py * stride + px) < 65536) :
    DepthRasterTriangle buf stride x1 y1 x2 y2 vs0 vs1 vs2 cmp (py * stride + px) =
      if depthTestPassed cmp
          ((edgeValue (triangleSetup vs0 vs2 vs1).A0 (triangleSetup vs0 vs2 vs1).B0
              (triangleSetup vs0 vs2 vs1).C0 px py : ℚ) *
              zzWeight vs0.z (triangleSetup vs0 vs2 vs1).triArea +
            (edgeValue (triangleSetup vs0 vs2 vs1).A1 (triangleSetup vs0 vs2 vs1).B1
              (triangleSetup vs0 vs2 vs1).C1 px py : ℚ) *
              zzWeight vs2.z (triangleSetup vs0 vs2 vs1).triArea +
            (edgeValue (triangleSetup vs0 vs2 vs1).A2 (triangleSetup vs0 vs2 vs1).B2
              (triangleSetup vs0 vs2 vs1).C2 px py : ℚ) *
              zzWeight vs1.z (triangleSetup vs0 vs2 vs1).triArea)
          ((buf (py * stride + px) : ℚ))
      then
        ratToU16
          ((edgeValue (triangleSetup vs0 vs2 vs1).A0 (triangleSetup vs0 vs2 vs1).B0
              (triangleSetup vs0 vs2 vs1).C0 px py : ℚ) *
              zzWeight vs0.z (triangleSetup vs0 vs2 vs1).triArea +
            (edgeValue (triangleSetup vs0 vs2 vs1).A1 (triangleSetup vs0 vs2 vs1).B1
              (triangleSetup vs0 vs2 vs1).C1 px py : ℚ) *
              zzWeight vs2.z (triangleSetup vs0 vs2 vs1).triArea +
            (edgeValue (triangleSetup vs0 vs2 vs1).A2 (triangleSetup vs0 vs2 vs1).B2
              (triangleSetup vs0 vs2 vs1).C2 px py : ℚ) *
              zzWeight vs1.z (triangleSetup vs0 vs2 vs1).triArea)
      else buf (py * stride + px) := by
  have hne : ¬(triEndX x2 vs0 vs2 vs1 = triStartX x1 vs0 vs2 vs1 ∨
      triEndY y2 vs0 vs2 vs1 = triStartY y1 vs0 vs2 vs1) := by omega
  have hs : 0 < stride := by omega
  simp only [DepthRasterTriangle]
  rw [if_neg hne, if_neg (not_le.mpr hT)]
  have hrI : (((py - triStartY y1 vs0 vs2 vs1).toNat : Nat) : Int) =
      py - triStartY y1 vs0 vs2 vs1 := Int.toNat_of_nonneg (by omega)
  have hkI : (((px - triStartX x1 vs0 vs2 vs1).toNat : Nat) : Int) =
      px - triStartX x1 vs0 vs2 vs1 := Int.toNat_of_nonneg (by omega)
  have hidx : py * stride + px =
      (triStartY y1 vs0 vs2 vs1 * stride + triStartX x1 vs0 vs2 vs1) +
        ((py - triStartY y1 vs0 vs2 vs1).toNat : Int) * stride +
        ((px - triStartX x1 vs0 vs2 vs1).toNat : Int) := by
    rw [hrI, hkI]; ring
  rw [hidx] at hbuf ⊢
  rw [rasterRows_apply_mem cmp _ _ _ _ _ _ _ _ _ stride _ (by omega) hs _
    ((py - triStartY y1 vs0 vs2 vs1).toNat) ((px - triStartX x1 vs0 vs2 vs1).toNat)
    (by omega) (by omega) buf _ _ _ _]
  have hA : edgeValue (triangleSetup vs0 vs2 vs1).A0 (triangleSetup vs0 vs2 vs1).B0
        (triangleSetup vs0 vs2 vs1).C0 (triStartX x1 vs0 vs2 vs1) (triStartY y1 vs0 vs2 vs1) +
        ((py - triStartY y1 vs0 vs2 vs1).toNat : Int) * (triangleSetup vs0 vs2 vs1).B0 +
        ((px - triStartX x1 vs0 vs2 vs1).toNat : Int) * (triangleSetup vs0 vs2 vs1).A0 =
      edgeValue (triangleSetup vs0 vs2 vs1).A0 (triangleSetup vs0 vs2 vs1).B0
        (triangleSetup vs0 vs2 vs1).C0 px py := by
    rw [hrI, hkI]; simp only [edgeValue]; ring
  have hB : edgeValue (triangleSetup vs0 vs2 vs1).A1 (triangleSetup vs0 vs2 vs1).B1
        (triangleSetup vs0 vs2 vs1).C1 (triStartX x1 vs0 vs2 vs1) (triStartY y1 vs0 vs2 vs1) +
        ((py - triStartY y1 vs0 vs2 vs1).toNat : Int) * (triangleSetup vs0 vs2 vs1).B1 +
        ((px - triStartX x1 vs0 vs2 vs1).toNat : Int) * (triangleSetup vs0 vs2 vs1).A1 =
      edgeValue (triangleSetup vs0 vs2 vs1).A1 (triangleSetup vs0 vs2 vs1).B1
        (triangleSetup vs0 vs2 vs1).C1 px py := by
    rw [hrI, hkI]; simp only [edgeValue]; ring
  have hC : edgeValue (triangleSetup vs0 vs2 vs1).A2 (triangleSetup vs0 vs2 vs1).B2
        (triangleSetup vs0 vs2 vs1).C2 (triStartX x1 vs0 vs2 vs1) (triStartY y1 vs0 vs2 vs1) +
        ((py - triStartY y1 vs0 vs2 vs1).toNat : Int) * (triangleSetup vs0 vs2 vs1).B2 +
        ((px - triStartX x1 vs0 vs2 vs1).toNat : Int) * (triangleSetup vs0 vs2 vs1).A2 =
      edgeValue (triangleSetup vs0 vs2 vs1).A2 (triangleSetup vs0 vs2 vs1).B2
        (triangleSetup vs0 vs2 vs1).C2 px py := by
    rw [hrI, hkI]; simp only [edgeValue]; ring
  rw [hA, hB, hC]
  rw [pixelVal, if_pos ⟨halpha, hbeta, hgamma⟩]
  dsimp only
  split
  · rfl
  · rw [ratToU16_natCast, Nat.mod_eq_of_lt hbuf]

/-- Witness for C5: a `GE_COMP_LESS` test that fails (interpolated depth 10
against buffer value 5) leaves the cell at 5. -/
theorem DepthRasterTriangle_pixel_update_witness :
    DepthRasterTriangle (fun _ => 5) 8 0 0 8 8 ⟨0, 0, 10, 0⟩ ⟨0, 4, 10, 0⟩ ⟨4, 0, 10, 0⟩
      .GE_COMP_LESS (1 * 8 + 1) = 5 := by
  have h := DepthRasterTriangle_pixel_update (fun _ => 5) 8 0 0 8 8
    ⟨0, 0, 10, 0⟩ ⟨0, 4, 10, 0⟩ ⟨4, 0, 10, 0⟩ .GE_COMP_LESS 1 1
    (by decide) (by decide) (by decide) (by decide) (by decide) (by decide)
    (by decide) (by decide) (by decide) (by decide)
  rw [h]
  norm_num [triangleSetup, edgeValue, zzWeight, depthTestPassed]
